import Mathlib

/-!
Verification of django-grapevine's admin send/bulk-edit/freeze workflows
(`grapevine/admin_base.py`) and of its Mailgun email backend
(`grapevine/emails/backends/mailgun.py`), via a shallow embedding of the
Python code into Lean.

Conventions of the embedding:
  * Python `str`-or-`None` values are `Option String`; Python truthiness on
    them is `strTruthy` (None and the empty string are falsy).
  * Django settings are a record of optional attributes; `getattr` with no
    default raises `AttributeError` when the attribute is absent.
  * Raised exceptions are the `Except` error channel (`PyErr`).
  * The single outbound HTTP call of the backend is modelled by passing the
    network's behaviour (`HttpResult`) as an argument; the requests actually
    issued are collected in the result so that "no network call was made"
    is expressible.
  * HTTP response bodies that the code feeds to `json.loads` are modelled as
    already-parsed flat JSON objects (`List (String × JsonVal)`), matching
    the documented provider contract that the failure body is a JSON object.
-/

/-- Python truthiness of a `str`-or-`None` value: `None` and `""` are falsy. -/
def strTruthy : Option String → Bool
  | none => false
  | some s => !s.isEmpty

/-- Scalar JSON values, as they occur in a (flat) provider error body. -/
inductive JsonVal where
  | jnull
  | jbool (b : Bool)
  | jnum (n : Int)
  | jstr (s : String)
  deriving DecidableEq, Repr

/-- Exceptions that the embedded code can raise. -/
inductive PyErr where
  /-- `AttributeError`, from `getattr(settings, name)` with the attribute absent. -/
  | attributeError
  /-- `TypeError`, from unpacking a non-iterable (`a, b = None`). -/
  | typeError
  /-- Any exception raised by `requests.post` (network-level failure). -/
  | requestsException
  /-- `MailgunAPIError(self.r)`: carries the provider response object. -/
  | mailgunAPIError (statusCode : Nat) (contentJson : List (String × JsonVal))
  deriving DecidableEq, Repr

/-- Python `dict` assignment `d[k] = v`: replace in place if the key exists,
append otherwise (insertion order preserved). -/
def dictSet (d : List (String × JsonVal)) (k : String) (v : JsonVal) :
    List (String × JsonVal) :=
  if d.any (fun p => p.1 = k) then
    d.map (fun p => if p.1 = k then (k, v) else p)
  else
    d ++ [(k, v)]

/-- String escaping as done by `json.dumps` (restricted to the backslash and
the double quote, the only escapes exercised here). -/
def jsonEscape (s : String) : String :=
  String.mk (s.data.foldr
    (fun c acc =>
      if c = '\\' then '\\' :: '\\' :: acc
      else if c = '"' then '\\' :: '"' :: acc
      else c :: acc) [])

/-- `json.dumps` of a scalar. -/
def jsonScalar : JsonVal → String
  | .jnull => "null"
  | .jbool true => "true"
  | .jbool false => "false"
  | .jnum n => toString n
  | .jstr s => "\"" ++ jsonEscape s ++ "\""

/-- `json.dumps` of a flat JSON object, with Python's default separators. -/
def jsonDumps (d : List (String × JsonVal)) : String :=
  "\x7b" ++ String.intercalate ", "
    (d.map (fun p => "\"" ++ jsonEscape p.1 ++ "\": " ++ jsonScalar p.2)) ++ "\x7d"

/-- The two Mailgun-related Django settings; `none` means the attribute is
absent from the settings object. -/
structure MailgunSettings where
  mailgunAccessKey : Option String
  mailgunServerName : Option String
  deriving DecidableEq, Repr

/-- `arg or getattr(settings, NAME)`: when `arg` is truthy it is the result;
otherwise `getattr` is evaluated and raises `AttributeError` if the setting
is absent. -/
def pyOrGetattr (arg : Option String) (attr : Option String) :
    Except PyErr String :=
  if strTruthy arg then .ok (arg.getD "")
  else match attr with
    | some v => .ok v
    | none => .error .attributeError

/-- One provider HTTP response (`self.r`): status code plus the parsed JSON
object body. -/
structure MailgunResponse where
  statusCode : Nat
  contentJson : List (String × JsonVal)
  deriving DecidableEq, Repr

/-- Behaviour of the network for the single `requests.post` of a send:
either a response comes back or `requests` raises. -/
inductive HttpResult where
  | resp (r : MailgunResponse)
  | netError
  deriving DecidableEq, Repr

/-- The state of `EmailBackend` (`mailgun.py`): constructor-established
fields plus the two attributes `_send` writes (`self.r`,
`self.failure_reason`), absent until first written. -/
structure EmailBackend where
  failSilently : Bool
  accessKey : String
  serverName : String
  apiUrl : String
  r : Option MailgunResponse
  failureReason : Option String
  deriving DecidableEq, Repr

/-- `EmailBackend.__init__`: pops `access_key` / `server_name` kwargs, falls
back to the `MAILGUN_ACCESS_KEY` / `MAILGUN_SERVER_NAME` settings; on
`AttributeError` the fail-silent branch executes
`self._access_key, self._server_name = None`, a two-element unpack of `None`
which raises `TypeError`; otherwise the `AttributeError` is re-raised. -/
def EmailBackend.init (failSilently : Bool)
    (accessKey serverName : Option String) (settings : MailgunSettings) :
    Except PyErr EmailBackend :=
  let tried : Except PyErr (String × String) := do
    let ak ← pyOrGetattr accessKey settings.mailgunAccessKey
    let sn ← pyOrGetattr serverName settings.mailgunServerName
    pure (ak, sn)
  match tried with
  | .ok (ak, sn) =>
      .ok { failSilently := failSilently, accessKey := ak, serverName := sn,
            apiUrl := "https://api.mailgun.net/v2/" ++ sn ++ "/",
            r := none, failureReason := none }
  | .error .attributeError =>
      if failSilently then .error .typeError
      else .error .attributeError
  | .error e => .error e

/-- An email message as `_send` consumes it: `from_email`, the recipient
list, and the source text of `message().as_string()`. -/
structure EmailMessage where
  fromEmail : String
  recipients : List String
  messageSource : String
  deriving DecidableEq, Repr

/-- `sanitize_address` is supplied by the host framework (Django); its only
relevant property here is that it maps an address to an address. -/
def sanitize_address (addr : String) : String := addr

/-- One outbound `requests.post` as `_send` issues it. -/
structure HttpCall where
  url : String
  authUser : String
  authKey : String
  toField : String
  fromField : String
  messageFile : String
  deriving DecidableEq, Repr

deriving instance DecidableEq for Except

/-- Result of one `_send`: the returned boolean or raised exception, the
backend state afterwards, and the HTTP calls that were issued. -/
structure SendOutcome where
  result : Except PyErr Bool
  backend : EmailBackend
  calls : List HttpCall
  deriving DecidableEq, Repr

/-- `EmailBackend._send`: empty recipient list returns `False` with no HTTP
call; otherwise one POST is issued; a `requests` exception is re-raised
unless `fail_silently`; a non-200 response stores the JSON body augmented
with a `status` field as `self.failure_reason` and raises
`MailgunAPIError(self.r)` unless `fail_silently`; a 200 response returns
`True`. -/
def EmailBackend.sendOne (b : EmailBackend) (net : HttpResult)
    (m : EmailMessage) : SendOutcome :=
  if m.recipients.isEmpty then
    { result := .ok false, backend := b, calls := [] }
  else
    let fromEmail := sanitize_address m.fromEmail
    let recipients := m.recipients.map sanitize_address
    let call : HttpCall :=
      { url := b.apiUrl ++ "messages.mime", authUser := "api",
        authKey := b.accessKey,
        toField := String.intercalate ", " recipients,
        fromField := fromEmail, messageFile := m.messageSource }
    match net with
    | .netError =>
        if !b.failSilently then
          { result := .error .requestsException, backend := b, calls := [call] }
        else
          { result := .ok false, backend := b, calls := [call] }
    | .resp r =>
        let b1 := { b with r := some r }
        if r.statusCode ≠ 200 then
          let failureDict := dictSet r.contentJson "status" (.jnum r.statusCode)
          let b2 := { b1 with failureReason := some (jsonDumps failureDict) }
          if !b2.failSilently then
            { result := .error (.mailgunAPIError r.statusCode r.contentJson),
              backend := b2, calls := [call] }
          else
            { result := .ok false, backend := b2, calls := [call] }
        else
          { result := .ok true, backend := b1, calls := [call] }

/-!
The admin layer (`grapevine/admin_base.py`).

`AdminBulkEditForm` lives in `grapevine/forms.py`, which is not among the
source files; its recombination of split date/time sub-fields is modelled
from the spec.  Likewise the model methods `Sendable.send`,
`Sendable.freeze_template` and `__unicode__` live in the (absent) model
layer: `send` is passed in as a function argument, `freeze_template` is
modelled from the spec, and `__unicode__` is modelled as a fixed textual
rendering of the id.
-/

/-- A combined timestamp (to minute precision, as produced by a split
date/time widget pair). -/
structure Timestamp where
  year : Nat
  month : Nat
  day : Nat
  hour : Nat
  minute : Nat
  deriving DecidableEq, Repr

/-- Split a character list on a separator character. -/
def splitOnChar (c : Char) (xs : List Char) : List (List Char) :=
  match xs with
  | [] => [[]]
  | x :: rest =>
      let tail := splitOnChar c rest
      if x = c then [] :: tail
      else match tail with
        | [] => [[x]]
        | t :: ts => (x :: t) :: ts

/-- Parse a non-empty all-digit character list as a natural number. -/
def digitsToNat : List Char → Option Nat
  | [] => none
  | xs =>
      if xs.all Char.isDigit then
        some (xs.foldl (fun acc c => acc * 10 + (c.toNat - 48)) 0)
      else none

/-- Modelled from the spec: the date sub-field of `AdminBulkEditForm`
(`grapevine/forms.py`, not in the sources) parses `YYYY-MM-DD` with a
calendar range check. -/
def parseDateSub (s : String) : Option (Nat × Nat × Nat) :=
  match (splitOnChar '-' s.data).map digitsToNat with
  | [some y, some m, some d] =>
      if 1 ≤ m ∧ m ≤ 12 ∧ 1 ≤ d ∧ d ≤ 31 then some (y, m, d) else none
  | _ => none

/-- Modelled from the spec: the time sub-field of `AdminBulkEditForm`
parses `HH:MM` with a range check. -/
def parseTimeSub (s : String) : Option (Nat × Nat) :=
  match (splitOnChar ':' s.data).map digitsToNat with
  | [some h, some mi] =>
      if h ≤ 23 ∧ mi ≤ 59 then some (h, mi) else none
  | _ => none

/-- A cleaned form value: `None`, a string, or a combined timestamp. -/
inductive CleanedValue where
  | noneVal
  | str (s : String)
  | dt (t : Timestamp)
  deriving DecidableEq, Repr

/-- Python truthiness of a cleaned value (`if value:` in
`perform_bulk_edits`). -/
def CleanedValue.pyTruthy : CleanedValue → Bool
  | .noneVal => false
  | .str s => !s.isEmpty
  | .dt _ => true

/-- Python `repr` of a cleaned value (`value.__repr__()` in
`perform_bulk_edits`). -/
def CleanedValue.pyRepr : CleanedValue → String
  | .noneVal => "None"
  | .str s => "u\x27" ++ s ++ "\x27"
  | .dt t =>
      "datetime.datetime(" ++ toString t.year ++ ", " ++ toString t.month ++
      ", " ++ toString t.day ++ ", " ++ toString t.hour ++ ", " ++
      toString t.minute ++ ")"

/-- The raw POST payload feeding `AdminBulkEditForm`: the two split
date/time sub-fields for `scheduled_send_time`, plus the other (plain
character) form fields with their raw values. -/
structure BulkEditFormData where
  dateSub : Option String
  timeSub : Option String
  otherFields : List (String × String)
  deriving DecidableEq, Repr

/-- An HTML sub-field is blank when absent or the empty string. -/
def blankSub : Option String → Bool
  | none => true
  | some s => s.isEmpty

/-- Outcome of cleaning the split date/time pair. -/
inductive SplitCleanOutcome where
  | emptyVal
  | value (t : Timestamp)
  | invalid
  deriving DecidableEq, Repr

/-- Modelled from the spec: recombination of the split date/time sub-fields
into the singular `scheduled_send_time` value, as performed by
`AdminBulkEditForm.full_clean`.  Both sub-fields blank cleans to `None`;
a partial pair or an unparsable component is a validation error. -/
def cleanSplitDateTime (d t : Option String) : SplitCleanOutcome :=
  if blankSub d && blankSub t then .emptyVal
  else if blankSub d || blankSub t then .invalid
  else
    match parseDateSub (d.getD ""), parseTimeSub (t.getD "") with
    | some dv, some tv =>
        .value { year := dv.1, month := dv.2.1, day := dv.2.2,
                 hour := tv.1, minute := tv.2 }
    | _, _ => .invalid

/-- A form after `full_clean`: `cleaned_data` holds only the fields that
validated (an invalid field is dropped from it), `errors` the names of the
fields that failed validation.  Django's `full_clean` collects errors; it
does not raise. -/
structure CleanedForm where
  cleanedData : List (String × CleanedValue)
  errors : List String
  deriving DecidableEq, Repr

/-- Modelled from the spec: `AdminBulkEditForm(request.POST).full_clean()`.
The split date/time pair is recombined into `scheduled_send_time`; plain
character fields clean to their raw string. -/
def AdminBulkEditForm.full_clean (fd : BulkEditFormData) : CleanedForm :=
  let others := fd.otherFields.map (fun p => (p.1, CleanedValue.str p.2))
  match cleanSplitDateTime fd.dateSub fd.timeSub with
  | .emptyVal =>
      { cleanedData := ("scheduled_send_time", CleanedValue.noneVal) :: others,
        errors := [] }
  | .value t =>
      { cleanedData := ("scheduled_send_time", CleanedValue.dt t) :: others,
        errors := [] }
  | .invalid =>
      { cleanedData := others, errors := ["scheduled_send_time"] }

/-- The Sendable rows this admin operates on.  `extra` carries the plain
character columns addressable by the bulk-edit form. -/
structure Sendable where
  id : Nat
  scheduledSendTime : Option Timestamp
  cancelledAtSendTime : Bool
  isSent : Bool
  messageId : Option Nat
  templateId : Nat
  transportId : Nat
  extra : List (String × String)
  deriving DecidableEq, Repr

/-- Modelled convention for `obj.__unicode__()` (model layer, not in the
sources). -/
def Sendable.unicodeRepr (s : Sendable) : String :=
  "Sendable(" ++ toString s.id ++ ")"

/-- Lookup of a plain column by name. -/
def lookupStr : List (String × String) → String → Option String
  | [], _ => none
  | p :: rest, k => if p.1 = k then some p.2 else lookupStr rest k

/-- Column assignment: replace in place when present, append otherwise. -/
def setStr (xs : List (String × String)) (k v : String) :
    List (String × String) :=
  if xs.any (fun p => p.1 = k) then
    xs.map (fun p => if p.1 = k then (k, v) else p)
  else xs ++ [(k, v)]

/-- Assignment of one cleaned field to a Sendable row, as performed by
`queryset.update(**update_dict)`. -/
def Sendable.setField (s : Sendable) (k : String) (v : CleanedValue) :
    Sendable :=
  if k = "scheduled_send_time" then
    match v with
    | .dt t => { s with scheduledSendTime := some t }
    | _ => s
  else
    match v with
    | .str sv => { s with extra := setStr s.extra k sv }
    | _ => s

/-- Application of a whole `update_dict` to one row. -/
def applyFields (s : Sendable) (ud : List (String × CleanedValue)) :
    Sendable :=
  ud.foldl (fun acc p => acc.setField p.1 p.2) s

/-- Django's `CHANGE` action flag. -/
def CHANGE : Nat := 2

/-- One `LogEntry.objects.log_action` record. -/
structure LogEntry where
  userId : Nat
  contentTypeId : Nat
  objectId : Nat
  objectRepr : String
  actionFlag : Nat
  changeMessage : String
  deriving DecidableEq, Repr

/-- The request data the three admin operations consume. -/
structure AdminRequest where
  isAuthenticated : Bool
  isStaff : Bool
  userId : Nat
  userEmail : String
  method : String
  bulkEditIds : List Nat
  formData : BulkEditFormData
  deriving DecidableEq, Repr

/-- Result of `perform_bulk_edits`: `earlyStatus` is the status code of an
early `HttpResponse` (401 or 405) when one was returned (`none` means the
final redirect was reached), alongside the database afterwards, the audit
entries written, and the user-visible messages added. -/
structure BulkEditOutcome where
  earlyStatus : Option Nat
  db : List Sendable
  logEntries : List LogEntry
  uiMessages : List String
  deriving DecidableEq, Repr

/-- `FreezableTemplateAdminMixin.perform_bulk_edits`, translated clause by
clause: the (inverted) authentication test `not is_authenticated() and
is_staff`, the POST check, `pk__in` filtering, `full_clean`, the truthy
filter building `update_dict` and `log_dict`, the conditional
`queryset.update` plus one audit entry per matched row, and the success
message counting `len(bulk_edit_ids)`. -/
def FreezableTemplateAdminMixin.perform_bulk_edits (ctId : Nat)
    (req : AdminRequest) (db : List Sendable) : BulkEditOutcome :=
  if !req.isAuthenticated && req.isStaff then
    { earlyStatus := some 401, db := db, logEntries := [], uiMessages := [] }
  else if req.method ≠ "POST" then
    { earlyStatus := some 405, db := db, logEntries := [], uiMessages := [] }
  else
    let bulkEditIds := req.bulkEditIds
    let form := AdminBulkEditForm.full_clean req.formData
    let updateDict := form.cleanedData.filter (fun p => p.2.pyTruthy)
    let logDict := updateDict.map (fun p => (p.1, JsonVal.jstr p.2.pyRepr))
    let db2 :=
      if !updateDict.isEmpty then
        db.map (fun s =>
          if bulkEditIds.contains s.id then applyFields s updateDict else s)
      else db
    let logs :=
      if !updateDict.isEmpty then
        (db2.filter (fun s => bulkEditIds.contains s.id)).map (fun sr =>
          { userId := req.userId, contentTypeId := ctId, objectId := sr.id,
            objectRepr := sr.unicodeRepr, actionFlag := CHANGE,
            changeMessage :=
              "Applied " ++ jsonDumps logDict ++ " to " ++
              (if (sr.messageId.getD 0) ≠ 0 then "SENT" else "UNSENT") ++
              " sendable Id: " ++ toString sr.id })
      else []
    { earlyStatus := none, db := db2, logEntries := logs,
      uiMessages :=
        [toString bulkEditIds.length ++ " messages updated successfully."] }

/-- Message levels of `django.contrib.messages` used here. -/
def SUCCESS : Nat := 25

/-- The error message level. -/
def ERROR : Nat := 40

/-- Responses an admin view can produce: a raised `Http404` or a redirect to
the object's change page. -/
inductive AdminResponse where
  | http404
  | redirectChange (objId : Nat)
  deriving DecidableEq, Repr

/-- Result of `send_message`: the response, the Sendable afterwards, the
user-visible messages (level, text), the audit entries written, and
whether `obj.send(...)` was invoked at all. -/
structure SendMessageOutcome where
  response : AdminResponse
  obj : Sendable
  uiMessages : List (Nat × String)
  logEntries : List LogEntry
  sendInvoked : Bool
  deriving DecidableEq, Repr

/-- `SendableAdminMixin.send_message`, translated clause by clause.  The
model-layer `obj.send(recipient_address=..., is_test=...)` is not in the
sources and is passed in as `sendFn`, returning the mutated Sendable and
the `is_sent` boolean. -/
def SendableAdminMixin.send_message (ctId : Nat) (req : AdminRequest)
    (obj : Sendable) (isTest : Bool) (recipientAddress : Option String)
    (sendFn : Sendable → Option String → Bool → Sendable × Bool) :
    SendMessageOutcome :=
  if !req.isAuthenticated || !req.isStaff then
    { response := .http404, obj := obj, uiMessages := [], logEntries := [],
      sendInvoked := false }
  else if isTest && req.userEmail.isEmpty then
    { response := .redirectChange obj.id, obj := obj,
      uiMessages :=
        [(ERROR, "Current Admin user does not have a specified email address.")],
      logEntries := [], sendInvoked := false }
  else
    let sent := sendFn obj recipientAddress isTest
    let obj2 := sent.1
    if sent.2 then
      let messageBeginning := if isTest then "Test" else ""
      let messageEnding :=
        if strTruthy recipientAddress then "to " ++ recipientAddress.getD ""
        else ""
      { response := .redirectChange obj2.id, obj := obj2,
        uiMessages :=
          [(SUCCESS, messageBeginning ++ " Message sent " ++ messageEnding)],
        logEntries :=
          [{ userId := req.userId, contentTypeId := ctId, objectId := obj2.id,
             objectRepr := obj2.unicodeRepr, actionFlag := CHANGE,
             changeMessage :=
               "Sent " ++ messageBeginning ++ " Message Id: " ++
               toString obj2.transportId ++ " for sendable Id: " ++
               toString obj2.id }],
        sendInvoked := true }
    else
      { response := .redirectChange obj2.id, obj := obj2,
        uiMessages := [(ERROR, "Problem sending email.")],
        logEntries := [], sendInvoked := true }

/-- A template row. -/
structure Template where
  id : Nat
  content : String
  deriving DecidableEq, Repr

/-- The template table plus the next primary key to assign. -/
structure TemplateStore where
  templates : List Template
  nextId : Nat
  deriving DecidableEq, Repr

/-- Modelled from the spec: the model-layer method
`Sendable.freeze_template` (mixins layer, not in the sources) creates a
private copy of the template currently referenced by the Sendable and
rebinds `template_id` to the copy, leaving the original untouched. -/
def Sendable.freeze_template (s : Sendable) (store : TemplateStore) :
    Sendable × TemplateStore :=
  let origContent :=
    ((store.templates.find? (fun t => t.id = s.templateId)).map
      (fun t => t.content)).getD ""
  ({ s with templateId := store.nextId },
   { templates := store.templates ++ [{ id := store.nextId,
                                        content := origContent }],
     nextId := store.nextId + 1 })

/-- Result of the admin `freeze_template` view. -/
structure FreezeOutcome where
  response : AdminResponse
  obj : Sendable
  store : TemplateStore
  logEntries : List LogEntry
  deriving DecidableEq, Repr

/-- `FreezableTemplateAdminMixin.freeze_template`, translated clause by
clause: the authentication test, the model-layer freeze, and the single
audit entry whose change message interpolates `obj.template_id` as it
stands after the freeze. -/
def FreezableTemplateAdminMixin.freeze_template (ctId : Nat)
    (req : AdminRequest) (obj : Sendable) (store : TemplateStore) :
    FreezeOutcome :=
  if !req.isAuthenticated || !req.isStaff then
    { response := .http404, obj := obj, store := store, logEntries := [] }
  else
    let frozen := obj.freeze_template store
    let obj2 := frozen.1
    { response := .redirectChange obj.id, obj := obj2, store := frozen.2,
      logEntries :=
        [{ userId := req.userId, contentTypeId := ctId, objectId := obj.id,
           objectRepr := obj2.unicodeRepr, actionFlag := CHANGE,
           changeMessage :=
             "Froze TemplateId:" ++ toString obj2.templateId ++
             " for customization" }] }

/-!
Concrete fixtures used by witnesses and counterexamples.
-/

/-- A draft Sendable row with the given id. -/
def mkSendable (i : Nat) : Sendable :=
  { id := i, scheduledSendTime := none, cancelledAtSendTime := false,
    isSent := false, messageId := none, templateId := 4, transportId := 7,
    extra := [("from_email", "old@y.com")] }

/-- An authenticated staff POST whose date sub-field is filled but whose
time sub-field is blank (a partial, hence invalid, combination), together
with one valid plain field. -/
def reqPartialDate : AdminRequest :=
  { isAuthenticated := true, isStaff := true, userId := 9, userEmail := "a@b.c",
    method := "POST", bulkEditIds := [1],
    formData := { dateSub := some "2024-01-01", timeSub := none,
                  otherFields := [("from_email", "x@y.com")] } }

/-- An authenticated staff POST rescheduling ids 1, 2 and 3 to
2024-01-01T10:00. -/
def reqValidDate : AdminRequest :=
  { isAuthenticated := true, isStaff := true, userId := 9, userEmail := "a@b.c",
    method := "POST", bulkEditIds := [1, 2, 3],
    formData := { dateSub := some "2024-01-01", timeSub := some "10:00",
                  otherFields := [] } }

/-- The same POST issued with no authentication at all. -/
def reqNoAuth : AdminRequest :=
  { reqValidDate with isAuthenticated := false, isStaff := false }

/-- An authenticated staff operator with no email address on file. -/
def reqNoEmail : AdminRequest :=
  { reqValidDate with userEmail := "" }

/-- A fail-silently backend with credentials in place. -/
def backendSilent : EmailBackend :=
  { failSilently := true, accessKey := "key-1", serverName := "srv",
    apiUrl := "https://api.mailgun.net/v2/srv/", r := none,
    failureReason := none }

/-- The same backend with fail-silently off. -/
def backendLoud : EmailBackend :=
  { backendSilent with failSilently := false }

/-- A one-recipient message. -/
def msgOne : EmailMessage :=
  { fromEmail := "f@x.com", recipients := ["a@x.com"], messageSource := "RAW" }

/-- A 400 provider rejection with a JSON object body. -/
def rejResp : MailgunResponse :=
  { statusCode := 400, contentJson := [("message", .jstr "bad address")] }

/-- A template table holding the shared template with id 1. -/
def storeFix : TemplateStore :=
  { templates := [{ id := 1, content := "body" }], nextId := 2 }

/-!
Theorems.  General lemmas about the embedding come first, then one theorem
per claim (with its witness or counterexample).
-/

theorem recipients_isEmpty_false {m : EmailMessage} (h : m.recipients ≠ []) :
    m.recipients.isEmpty = false := by
  cases hm : m.recipients with
  | nil => exact absurd hm h
  | cons a l => rfl

/-- C9: a Transport Adapter send invoked with an empty recipients list
returns the not-sent result `false`, makes no call to the external delivery
service, and raises no error. -/
theorem C9_empty_recipients (b : EmailBackend) (net : HttpResult)
    (m : EmailMessage) (h : m.recipients = []) :
    b.sendOne net m = { result := .ok false, backend := b, calls := [] } := by
  simp [EmailBackend.sendOne, h]

/-- C9 witness: the concrete silent backend on a message with no
recipients. -/
theorem C9_empty_recipients_witness :
    ({ msgOne with recipients := [] } : EmailMessage).recipients = [] ∧
    backendSilent.sendOne (.resp rejResp) { msgOne with recipients := [] } =
      { result := .ok false, backend := backendSilent, calls := [] } :=
  ⟨rfl, C9_empty_recipients backendSilent (.resp rejResp)
    { msgOne with recipients := [] } rfl⟩

/-- C5 counterexample: with `fail_silently` enabled, a network-level failure
(`requests` raising) is swallowed and returns `false`, but no last-failure
diagnostic is retained: `failure_reason` is never assigned on that path, so
the claim that a diagnostic is retained in both failure categories is false
on the code. -/
theorem C5_counterexample :
    (backendSilent.sendOne .netError msgOne).result = .ok false ∧
    (backendSilent.sendOne .netError msgOne).backend.failureReason = none := by
  constructor <;> rfl

/-- C5 (amended): with `fail_silently` enabled both failure categories are
swallowed and return `false` with no fault raised, but the last-failure
diagnostic is retained only for the non-200 provider-response category; a
network-level failure leaves `failure_reason` untouched. -/
theorem C5_fail_silently (b : EmailBackend) (net : HttpResult)
    (m : EmailMessage) (hfs : b.failSilently = true)
    (hne : m.recipients ≠ []) :
    (net = .netError →
      (b.sendOne net m).result = .ok false ∧
      (b.sendOne net m).backend.failureReason = b.failureReason) ∧
    (∀ r, net = .resp r → r.statusCode ≠ 200 →
      (b.sendOne net m).result = .ok false ∧
      (b.sendOne net m).backend.failureReason =
        some (jsonDumps (dictSet r.contentJson "status"
          (.jnum r.statusCode)))) := by
  have hne' := recipients_isEmpty_false hne
  constructor
  · rintro rfl
    simp [EmailBackend.sendOne, hne', hfs]
  · rintro r rfl hst
    simp [EmailBackend.sendOne, hne', hfs, hst]

/-- C5 witness: the silent backend and the concrete 400 rejection. -/
theorem C5_fail_silently_witness :
    backendSilent.failSilently = true ∧ msgOne.recipients ≠ [] ∧
    ((backendSilent.sendOne (.resp rejResp) msgOne).result = .ok false ∧
     (backendSilent.sendOne (.resp rejResp) msgOne).backend.failureReason =
       some (jsonDumps (dictSet rejResp.contentJson "status"
         (.jnum rejResp.statusCode)))) :=
  ⟨rfl, by decide,
   (C5_fail_silently backendSilent (.resp rejResp) msgOne rfl
     (by decide)).2 rejResp rfl (by decide)⟩

/-- C6: with `fail_silently` disabled, a non-200 provider response raises
`MailgunAPIError` carrying the response (status code and body), after
storing as the diagnostic the provider's JSON body augmented with a
`status` field and serialized; a network-level failure instead re-raises
the underlying `requests` exception. -/
theorem C6_provider_rejected (b : EmailBackend) (r : MailgunResponse)
    (m : EmailMessage) (hfs : b.failSilently = false)
    (hne : m.recipients ≠ []) (hst : r.statusCode ≠ 200) :
    (b.sendOne (.resp r) m).result =
      .error (.mailgunAPIError r.statusCode r.contentJson) ∧
    (b.sendOne (.resp r) m).backend.failureReason =
      some (jsonDumps (dictSet r.contentJson "status" (.jnum r.statusCode))) ∧
    (b.sendOne .netError m).result = .error .requestsException := by
  have hne' := recipients_isEmpty_false hne
  refine ⟨?_, ?_, ?_⟩ <;> simp [EmailBackend.sendOne, hne', hfs, hst]

/-- C6 witness: the loud backend, the concrete 400 rejection with body
`\x7b"message": "bad address"\x7d`. -/
theorem C6_provider_rejected_witness :
    backendLoud.failSilently = false ∧ msgOne.recipients ≠ [] ∧
    rejResp.statusCode ≠ 200 ∧
    ((backendLoud.sendOne (.resp rejResp) msgOne).result =
       .error (.mailgunAPIError 400 [("message", .jstr "bad address")]) ∧
     (backendLoud.sendOne (.resp rejResp) msgOne).backend.failureReason =
       some "\x7b\"message\": \"bad address\", \"status\": 400\x7d") := by
  have h := C6_provider_rejected backendLoud rejResp msgOne rfl
    (by decide) (by decide)
  exact ⟨rfl, by decide, by decide, by rw [h.1]; rfl, by rw [h.2.1]; rfl⟩

/-- C10: constructing the backend with `fail_silently=True` and no
credentials (falsy constructor arguments, both settings absent) still
raises: the fallback `self._access_key, self._server_name = None` unpacks
`None` into two targets, a `TypeError`, so construction never succeeds
silently without credentials. -/
theorem C10_init_without_credentials (ak sn : Option String)
    (s : MailgunSettings) (h1 : strTruthy ak = false)
    (h3 : s.mailgunAccessKey = none) (h4 : s.mailgunServerName = none) :
    EmailBackend.init true ak sn s = .error .typeError := by
  simp [EmailBackend.init, pyOrGetattr, h1, h3, h4, Except.bind, bind]

/-- C10 witness: no kwargs, empty settings. -/
theorem C10_init_without_credentials_witness :
    strTruthy none = false ∧
    EmailBackend.init true none none
      { mailgunAccessKey := none, mailgunServerName := none } =
      .error .typeError :=
  ⟨rfl, C10_init_without_credentials none none
    { mailgunAccessKey := none, mailgunServerName := none } rfl rfl rfl⟩

/-- C7: a test send (`is_test=True`) by an authenticated staff operator with
no email address on file adds the error message and redirects without ever
invoking `obj.send`, leaving the Sendable (in particular `is_sent`)
unchanged and writing no audit entry — for every possible model-layer send
function. -/
theorem C7_missing_operator_address (ctId : Nat) (req : AdminRequest)
    (obj : Sendable) (recipientAddress : Option String)
    (sendFn : Sendable → Option String → Bool → Sendable × Bool)
    (hauth : req.isAuthenticated = true) (hstaff : req.isStaff = true)
    (hmail : req.userEmail = "") :
    SendableAdminMixin.send_message ctId req obj true recipientAddress sendFn =
      { response := .redirectChange obj.id, obj := obj,
        uiMessages :=
          [(ERROR,
            "Current Admin user does not have a specified email address.")],
        logEntries := [], sendInvoked := false } := by
  have hmail' : req.userEmail.isEmpty = true := by rw [hmail]; rfl
  simp [SendableAdminMixin.send_message, hauth, hstaff, hmail']

/-- C7 witness: the no-email staff request against the draft Sendable 1,
with a send function that would have marked it sent had it been called. -/
theorem C7_missing_operator_address_witness :
    reqNoEmail.isAuthenticated = true ∧ reqNoEmail.isStaff = true ∧
    reqNoEmail.userEmail = "" ∧
    SendableAdminMixin.send_message 3 reqNoEmail (mkSendable 1) true none
      (fun s _ _ => ({ s with isSent := true }, true)) =
      { response := .redirectChange 1, obj := mkSendable 1,
        uiMessages :=
          [(ERROR,
            "Current Admin user does not have a specified email address.")],
        logEntries := [], sendInvoked := false } :=
  ⟨rfl, rfl, rfl,
   C7_missing_operator_address 3 reqNoEmail (mkSendable 1) none
     (fun s _ _ => ({ s with isSent := true }, true)) rfl rfl rfl⟩

/-- C3 counterexample: freezing Sendable 1, which references the shared
template 1, writes an audit entry naming the id of the new private copy
(2), not the id of the original template that was copied (1): the change
message is interpolated from `obj.template_id` after the rebind. -/
theorem C3_counterexample :
    (FreezableTemplateAdminMixin.freeze_template 3 reqValidDate
        { mkSendable 1 with templateId := 1 } storeFix).logEntries.map
      (fun e => e.changeMessage) =
      ["Froze TemplateId:2 for customization"] ∧
    ({ mkSendable 1 with templateId := 1 } : Sendable).templateId = 1 ∧
    "Froze TemplateId:2 for customization" ≠
      "Froze TemplateId:1 for customization" := by
  refine ⟨rfl, rfl, by decide⟩

/-- C3 (amended): a successful freeze writes exactly one audit entry, and
its change message names the id of the new private copy (the value of
`template_id` after the rebind, i.e. the store's next id), while the
original template row itself is left untouched. -/
theorem C3_freeze_audit (ctId : Nat) (req : AdminRequest) (obj : Sendable)
    (store : TemplateStore) (hauth : req.isAuthenticated = true)
    (hstaff : req.isStaff = true) :
    (FreezableTemplateAdminMixin.freeze_template ctId req obj store).logEntries =
      [{ userId := req.userId, contentTypeId := ctId, objectId := obj.id,
         objectRepr := "Sendable(" ++ toString obj.id ++ ")",
         actionFlag := CHANGE,
         changeMessage :=
           "Froze TemplateId:" ++ toString store.nextId ++
           " for customization" }] ∧
    (FreezableTemplateAdminMixin.freeze_template ctId req obj store).obj.templateId =
      store.nextId ∧
    (FreezableTemplateAdminMixin.freeze_template ctId req obj store).store.templates =
      store.templates ++
        [{ id := store.nextId,
           content :=
             ((store.templates.find? (fun t => t.id = obj.templateId)).map
               (fun t => t.content)).getD "" }] := by
  refine ⟨?_, ?_, ?_⟩ <;>
    simp [FreezableTemplateAdminMixin.freeze_template, hauth, hstaff,
      Sendable.freeze_template, Sendable.unicodeRepr]

/-- C3 witness: the concrete freeze of Sendable 1 over the one-template
store. -/
theorem C3_freeze_audit_witness :
    reqValidDate.isAuthenticated = true ∧ reqValidDate.isStaff = true ∧
    ((FreezableTemplateAdminMixin.freeze_template 3 reqValidDate
        { mkSendable 1 with templateId := 1 } storeFix).logEntries =
      [{ userId := 9, contentTypeId := 3, objectId := 1,
         objectRepr := "Sendable(" ++ toString 1 ++ ")", actionFlag := CHANGE,
         changeMessage :=
           "Froze TemplateId:" ++ toString storeFix.nextId ++
           " for customization" }] ∧
     (FreezableTemplateAdminMixin.freeze_template 3 reqValidDate
        { mkSendable 1 with templateId := 1 } storeFix).obj.templateId =
       storeFix.nextId ∧
     (FreezableTemplateAdminMixin.freeze_template 3 reqValidDate
        { mkSendable 1 with templateId := 1 } storeFix).store.templates =
       storeFix.templates ++
         [{ id := storeFix.nextId,
            content :=
              ((storeFix.templates.find? (fun t =>
                  t.id = ({ mkSendable 1 with templateId := 1 } : Sendable).templateId)).map
                (fun t => t.content)).getD "" }]) :=
  ⟨rfl, rfl,
   C3_freeze_audit 3 reqValidDate { mkSendable 1 with templateId := 1 }
     storeFix rfl rfl⟩

/-- C4: the authentication guard of `perform_bulk_edits` is inverted (`not
is_authenticated() and is_staff` instead of `or not is_staff`), so a fully
unauthenticated, non-staff caller is not rejected: the bulk edit runs to
completion, mutates the targeted Sendable and writes an audit entry. -/
theorem C4_bulk_edit_auth_bypass :
    (FreezableTemplateAdminMixin.perform_bulk_edits 3 reqNoAuth
        [mkSendable 1]).earlyStatus = none ∧
    (FreezableTemplateAdminMixin.perform_bulk_edits 3 reqNoAuth
        [mkSendable 1]).db.map (fun s => s.scheduledSendTime) =
      [some { year := 2024, month := 1, day := 1, hour := 10, minute := 0 }] ∧
    (FreezableTemplateAdminMixin.perform_bulk_edits 3 reqNoAuth
        [mkSendable 1]).logEntries.length = 1 ∧
    reqNoAuth.isAuthenticated = false ∧ reqNoAuth.isStaff = false := by
  refine ⟨rfl, by decide, rfl, rfl, rfl⟩

theorem applyFields_cons (s : Sendable) (p : String × CleanedValue)
    (rest : List (String × CleanedValue)) :
    applyFields s (p :: rest) = applyFields (s.setField p.1 p.2) rest := rfl

theorem setField_frame (s : Sendable) (k : String) (v : CleanedValue) :
    (s.setField k v).id = s.id ∧ (s.setField k v).isSent = s.isSent ∧
    (s.setField k v).cancelledAtSendTime = s.cancelledAtSendTime ∧
    (s.setField k v).messageId = s.messageId ∧
    (s.setField k v).templateId = s.templateId ∧
    (s.setField k v).transportId = s.transportId := by
  unfold Sendable.setField
  split <;> cases v <;> simp

theorem applyFields_frame (ud : List (String × CleanedValue)) (s : Sendable) :
    (applyFields s ud).id = s.id ∧ (applyFields s ud).isSent = s.isSent ∧
    (applyFields s ud).cancelledAtSendTime = s.cancelledAtSendTime ∧
    (applyFields s ud).messageId = s.messageId ∧
    (applyFields s ud).templateId = s.templateId ∧
    (applyFields s ud).transportId = s.transportId := by
  induction ud generalizing s with
  | nil => exact ⟨rfl, rfl, rfl, rfl, rfl, rfl⟩
  | cons p rest ih =>
    have hs := setField_frame s p.1 p.2
    have hr := ih (s.setField p.1 p.2)
    rw [applyFields_cons]
    exact ⟨hr.1.trans hs.1, hr.2.1.trans hs.2.1,
      hr.2.2.1.trans hs.2.2.1, hr.2.2.2.1.trans hs.2.2.2.1,
      hr.2.2.2.2.1.trans hs.2.2.2.2.1, hr.2.2.2.2.2.trans hs.2.2.2.2.2⟩

theorem setField_sst_ne (s : Sendable) (k : String) (v : CleanedValue)
    (h : k ≠ "scheduled_send_time") :
    (s.setField k v).scheduledSendTime = s.scheduledSendTime := by
  unfold Sendable.setField
  rw [if_neg h]
  cases v <;> simp

theorem setField_sst_str (s : Sendable) (k : String) (sv : String) :
    (s.setField k (.str sv)).scheduledSendTime = s.scheduledSendTime := by
  unfold Sendable.setField
  split <;> simp

theorem applyFields_sst_not_mem (ud : List (String × CleanedValue))
    (s : Sendable) (h : ∀ p ∈ ud, p.1 ≠ "scheduled_send_time") :
    (applyFields s ud).scheduledSendTime = s.scheduledSendTime := by
  induction ud generalizing s with
  | nil => rfl
  | cons p rest ih =>
    rw [applyFields_cons,
      ih _ (fun q hq => h q (List.mem_cons_of_mem p hq)),
      setField_sst_ne _ _ _ (h p (List.mem_cons_self p rest))]

theorem applyFields_sst_all_str (ud : List (String × CleanedValue))
    (s : Sendable) (h : ∀ p ∈ ud, ∃ sv, p.2 = CleanedValue.str sv) :
    (applyFields s ud).scheduledSendTime = s.scheduledSendTime := by
  induction ud generalizing s with
  | nil => rfl
  | cons p rest ih =>
    obtain ⟨sv, hsv⟩ := h p (List.mem_cons_self p rest)
    rw [applyFields_cons, ih _ (fun q hq => h q (List.mem_cons_of_mem p hq)),
      hsv, setField_sst_str]

theorem lookupStr_map_set (xs : List (String × String)) (k v k2 : String)
    (h : k2 ≠ k) :
    lookupStr (xs.map (fun p => if p.1 = k then (k, v) else p)) k2 =
      lookupStr xs k2 := by
  induction xs with
  | nil => rfl
  | cons p rest ih =>
    have h1 : k ≠ k2 := Ne.symm h
    by_cases hp : p.1 = k
    · simp [lookupStr, hp, h1, h, ih]
    · by_cases hq : p.1 = k2 <;> simp [lookupStr, hp, hq, h, h1, ih]

theorem lookupStr_append_one (xs : List (String × String)) (k v k2 : String)
    (h : k2 ≠ k) :
    lookupStr (xs ++ [(k, v)]) k2 = lookupStr xs k2 := by
  induction xs with
  | nil => simp [lookupStr, Ne.symm h]
  | cons p rest ih =>
    by_cases hq : p.1 = k2 <;> simp [lookupStr, hq, ih]

theorem lookupStr_setStr_ne (xs : List (String × String)) (k v k2 : String)
    (h : k2 ≠ k) : lookupStr (setStr xs k v) k2 = lookupStr xs k2 := by
  unfold setStr
  split
  · exact lookupStr_map_set xs k v k2 h
  · exact lookupStr_append_one xs k v k2 h

theorem setField_extra_ne (s : Sendable) (k : String) (v : CleanedValue)
    (k2 : String) (h : k2 ≠ k) :
    lookupStr (s.setField k v).extra k2 = lookupStr s.extra k2 := by
  unfold Sendable.setField
  split <;> cases v <;> simp [lookupStr_setStr_ne _ _ _ _ h]

theorem applyFields_extra_not_mem (ud : List (String × CleanedValue))
    (s : Sendable) (k2 : String) (h : ∀ p ∈ ud, p.1 ≠ k2) :
    lookupStr (applyFields s ud).extra k2 = lookupStr s.extra k2 := by
  induction ud generalizing s with
  | nil => rfl
  | cons p rest ih =>
    rw [applyFields_cons, ih _ (fun q hq => h q (List.mem_cons_of_mem p hq)),
      setField_extra_ne _ _ _ _ (fun e => h p (List.mem_cons_self p rest) e.symm)]

theorem perform_bulk_edits_earlyStatus (ctId : Nat) (req : AdminRequest)
    (db : List Sendable) (hauth : req.isAuthenticated = true)
    (hm : req.method = "POST") :
    (FreezableTemplateAdminMixin.perform_bulk_edits ctId req db).earlyStatus =
      none := by
  simp [FreezableTemplateAdminMixin.perform_bulk_edits, hauth, hm]

theorem perform_bulk_edits_uiMessages (ctId : Nat) (req : AdminRequest)
    (db : List Sendable) (hauth : req.isAuthenticated = true)
    (hm : req.method = "POST") :
    (FreezableTemplateAdminMixin.perform_bulk_edits ctId req db).uiMessages =
      [toString req.bulkEditIds.length ++ " messages updated successfully."] := by
  simp [FreezableTemplateAdminMixin.perform_bulk_edits, hauth, hm]

theorem perform_bulk_edits_db (ctId : Nat) (req : AdminRequest)
    (db : List Sendable) (hauth : req.isAuthenticated = true)
    (hm : req.method = "POST") :
    (FreezableTemplateAdminMixin.perform_bulk_edits ctId req db).db =
      (if !((AdminBulkEditForm.full_clean req.formData).cleanedData.filter
            (fun p => p.2.pyTruthy)).isEmpty then
        db.map (fun s =>
          if req.bulkEditIds.contains s.id then
            applyFields s ((AdminBulkEditForm.full_clean req.formData).cleanedData.filter
              (fun p => p.2.pyTruthy))
          else s)
      else db) := by
  simp [FreezableTemplateAdminMixin.perform_bulk_edits, hauth, hm]

theorem perform_bulk_edits_logEntries (ctId : Nat) (req : AdminRequest)
    (db : List Sendable) (hauth : req.isAuthenticated = true)
    (hm : req.method = "POST") :
    (FreezableTemplateAdminMixin.perform_bulk_edits ctId req db).logEntries.length =
      (if !((AdminBulkEditForm.full_clean req.formData).cleanedData.filter
            (fun p => p.2.pyTruthy)).isEmpty then
        (db.filter (fun s => req.bulkEditIds.contains s.id)).length
      else 0) := by
  by_cases hud : ((AdminBulkEditForm.full_clean req.formData).cleanedData.filter
      (fun p => p.2.pyTruthy)).isEmpty
  · simp [FreezableTemplateAdminMixin.perform_bulk_edits, hauth, hm, hud]
  · simp only [FreezableTemplateAdminMixin.perform_bulk_edits, hauth, hm]
    simp [hud, List.filter_map]
    rw [List.filter_congr]
    intro s hs
    by_cases hc : s.id ∈ req.bulkEditIds
    · simp only [Function.comp_apply, if_pos hc, (applyFields_frame _ s).1]
    · simp only [Function.comp_apply, if_neg hc]

/-- C1 counterexample: a batch whose date sub-field is filled but whose time
sub-field is blank (an invalid combination) together with one valid plain
field does not fail with a `ValidationError`: the operation reaches its
success message and the valid field is applied to the targeted Sendable. -/
theorem C1_counterexample :
    cleanSplitDateTime reqPartialDate.formData.dateSub
        reqPartialDate.formData.timeSub = .invalid ∧
    (FreezableTemplateAdminMixin.perform_bulk_edits 3 reqPartialDate
        [mkSendable 1]).earlyStatus = none ∧
    (FreezableTemplateAdminMixin.perform_bulk_edits 3 reqPartialDate
        [mkSendable 1]).uiMessages = ["1 messages updated successfully."] ∧
    (FreezableTemplateAdminMixin.perform_bulk_edits 3 reqPartialDate
        [mkSendable 1]).db.map (fun s => lookupStr s.extra "from_email") =
      [some "x@y.com"] ∧
    lookupStr (mkSendable 1).extra "from_email" = some "old@y.com" := by
  exact ⟨by decide, rfl, rfl, by decide, rfl⟩

/-- C1 (amended): a malformed or partial date/time sub-field combination
does not abort the batch: the invalid `scheduled_send_time` field is merely
dropped from `cleaned_data`, the operation still reaches its success
message, every row's `scheduled_send_time` is left unchanged, and the other
non-empty fields are still applied (no `ValidationError`, no all-or-nothing
failure). -/
theorem C1_invalid_datetime_not_fatal (ctId : Nat) (req : AdminRequest)
    (db : List Sendable) (hauth : req.isAuthenticated = true)
    (hm : req.method = "POST")
    (hinv : cleanSplitDateTime req.formData.dateSub req.formData.timeSub =
      .invalid) :
    (FreezableTemplateAdminMixin.perform_bulk_edits ctId req db).earlyStatus =
      none ∧
    (FreezableTemplateAdminMixin.perform_bulk_edits ctId req db).uiMessages =
      [toString req.bulkEditIds.length ++ " messages updated successfully."] ∧
    (FreezableTemplateAdminMixin.perform_bulk_edits ctId req db).db.map
        (fun s => s.scheduledSendTime) =
      db.map (fun s => s.scheduledSendTime) := by
  refine ⟨perform_bulk_edits_earlyStatus ctId req db hauth hm,
    perform_bulk_edits_uiMessages ctId req db hauth hm, ?_⟩
  rw [perform_bulk_edits_db ctId req db hauth hm]
  split
  · rw [List.map_map]
    apply List.map_congr_left
    intro s _
    simp only [Function.comp_apply]
    by_cases hc : req.bulkEditIds.contains s.id = true
    · rw [if_pos hc]
      apply applyFields_sst_all_str
      intro p hp
      have hp2 := (List.mem_filter.mp hp).1
      simp only [AdminBulkEditForm.full_clean, hinv] at hp2
      obtain ⟨q, _, hq⟩ := List.mem_map.mp hp2
      exact ⟨q.2, (congrArg Prod.snd hq).symm⟩
    · rw [if_neg hc]
  · rfl

/-- C1 amended-claim witness: the partial-date request against the draft
Sendable 1. -/
theorem C1_invalid_datetime_not_fatal_witness :
    reqPartialDate.isAuthenticated = true ∧ reqPartialDate.method = "POST" ∧
    cleanSplitDateTime reqPartialDate.formData.dateSub
        reqPartialDate.formData.timeSub = .invalid ∧
    ((FreezableTemplateAdminMixin.perform_bulk_edits 3 reqPartialDate
        [mkSendable 1]).earlyStatus = none ∧
     (FreezableTemplateAdminMixin.perform_bulk_edits 3 reqPartialDate
        [mkSendable 1]).uiMessages =
       [toString reqPartialDate.bulkEditIds.length ++
         " messages updated successfully."] ∧
     (FreezableTemplateAdminMixin.perform_bulk_edits 3 reqPartialDate
        [mkSendable 1]).db.map (fun s => s.scheduledSendTime) =
       [mkSendable 1].map (fun s => s.scheduledSendTime)) :=
  ⟨rfl, rfl, by decide,
   C1_invalid_datetime_not_fatal 3 reqPartialDate [mkSendable 1] rfl rfl
     (by decide)⟩

/-- C2 counterexample: bulk-editing target ids 1, 2, 3 over a database in
which id 3 does not exist reports "3 messages updated successfully." even
though only two Sendables were affected (two audit entries), so the
reported count is not the count of Sendables actually affected. -/
theorem C2_counterexample :
    (FreezableTemplateAdminMixin.perform_bulk_edits 3 reqValidDate
        [mkSendable 1, mkSendable 2]).uiMessages =
      ["3 messages updated successfully."] ∧
    (FreezableTemplateAdminMixin.perform_bulk_edits 3 reqValidDate
        [mkSendable 1, mkSendable 2]).logEntries.length = 2 ∧
    ("3 messages updated successfully." : String) ≠
      "2 messages updated successfully." := by
  exact ⟨rfl, rfl, by decide⟩

/-- C2 (amended): the reported count is the number of submitted target ids
(`len(bulk_edit_ids)`), not the number of records affected; the number of
audit entries written is the number of resolved records (when at least one
non-empty field was submitted), and a target list resolving to zero records
still succeeds with no error status. -/
theorem C2_reported_count (ctId : Nat) (req : AdminRequest)
    (db : List Sendable) (hauth : req.isAuthenticated = true)
    (hm : req.method = "POST") :
    (FreezableTemplateAdminMixin.perform_bulk_edits ctId req db).earlyStatus =
      none ∧
    (FreezableTemplateAdminMixin.perform_bulk_edits ctId req db).uiMessages =
      [toString req.bulkEditIds.length ++ " messages updated successfully."] ∧
    (¬((AdminBulkEditForm.full_clean req.formData).cleanedData.filter
          (fun p => p.2.pyTruthy)).isEmpty = true →
      (FreezableTemplateAdminMixin.perform_bulk_edits ctId req db).logEntries.length =
        (db.filter (fun s => req.bulkEditIds.contains s.id)).length) := by
  refine ⟨perform_bulk_edits_earlyStatus ctId req db hauth hm,
    perform_bulk_edits_uiMessages ctId req db hauth hm, ?_⟩
  intro hud
  rw [perform_bulk_edits_logEntries ctId req db hauth hm]
  simp [hud]

/-- C2 amended-claim witness: ids 1, 2, 3 against a database holding only
ids 1 and 2. -/
theorem C2_reported_count_witness :
    reqValidDate.isAuthenticated = true ∧ reqValidDate.method = "POST" ∧
    ((FreezableTemplateAdminMixin.perform_bulk_edits 3 reqValidDate
        [mkSendable 1, mkSendable 2]).earlyStatus = none ∧
     (FreezableTemplateAdminMixin.perform_bulk_edits 3 reqValidDate
        [mkSendable 1, mkSendable 2]).uiMessages =
       [toString reqValidDate.bulkEditIds.length ++
         " messages updated successfully."] ∧
     (¬((AdminBulkEditForm.full_clean reqValidDate.formData).cleanedData.filter
           (fun p => p.2.pyTruthy)).isEmpty = true →
       (FreezableTemplateAdminMixin.perform_bulk_edits 3 reqValidDate
           [mkSendable 1, mkSendable 2]).logEntries.length =
         ([mkSendable 1, mkSendable 2].filter
           (fun s => reqValidDate.bulkEditIds.contains s.id)).length)) :=
  ⟨rfl, rfl, C2_reported_count 3 reqValidDate [mkSendable 1, mkSendable 2]
    rfl rfl⟩

/-- C8: every field applied by a bulk edit carries a non-empty (truthy)
cleaned value, and for every row of the database: an untargeted row is
unchanged; on a targeted row all non-form columns (`id`, `is_sent`,
`cancelled_at_send_time`, `message_id`, `template_id`, `transport`) are
untouched, `scheduled_send_time` is untouched unless it is among the
applied fields, and every plain column whose name is not among the applied
fields is untouched — a field submitted empty is never cleared. -/
theorem C8_only_nonempty_fields_applied (ctId : Nat) (req : AdminRequest)
    (db : List Sendable) (hauth : req.isAuthenticated = true)
    (hm : req.method = "POST") :
    (∀ p ∈ (AdminBulkEditForm.full_clean req.formData).cleanedData.filter
        (fun q => q.2.pyTruthy), p.2.pyTruthy = true) ∧
    List.Forall₂ (fun s s2 =>
        (req.bulkEditIds.contains s.id = false → s2 = s) ∧
        s2.id = s.id ∧ s2.isSent = s.isSent ∧
        s2.cancelledAtSendTime = s.cancelledAtSendTime ∧
        s2.messageId = s.messageId ∧ s2.templateId = s.templateId ∧
        s2.transportId = s.transportId ∧
        ((∀ p ∈ (AdminBulkEditForm.full_clean req.formData).cleanedData.filter
            (fun q => q.2.pyTruthy), p.1 ≠ "scheduled_send_time") →
          s2.scheduledSendTime = s.scheduledSendTime) ∧
        (∀ k, (∀ p ∈ (AdminBulkEditForm.full_clean req.formData).cleanedData.filter
            (fun q => q.2.pyTruthy), p.1 ≠ k) →
          lookupStr s2.extra k = lookupStr s.extra k))
      db
      (FreezableTemplateAdminMixin.perform_bulk_edits ctId req db).db := by
  constructor
  · intro p hp
    exact (List.mem_filter.mp hp).2
  · rw [perform_bulk_edits_db ctId req db hauth hm]
    split
    · rw [List.forall₂_map_right_iff, List.forall₂_same]
      intro s _
      by_cases hc : req.bulkEditIds.contains s.id = true
      · rw [if_pos hc]
        have hf := applyFields_frame
          ((AdminBulkEditForm.full_clean req.formData).cleanedData.filter
            (fun q => q.2.pyTruthy)) s
        refine ⟨fun hn => absurd hc (by simpa using hn), hf.1, hf.2.1, hf.2.2.1,
          hf.2.2.2.1, hf.2.2.2.2.1, hf.2.2.2.2.2,
          fun hk => applyFields_sst_not_mem _ _ hk,
          fun k hk => applyFields_extra_not_mem _ _ _ hk⟩
      · rw [if_neg hc]
        exact ⟨fun _ => rfl, rfl, rfl, rfl, rfl, rfl, rfl,
          fun _ => rfl, fun _ _ => rfl⟩
    · rw [List.forall₂_same]
      intro s _
      exact ⟨fun _ => rfl, rfl, rfl, rfl, rfl, rfl, rfl,
        fun _ => rfl, fun _ _ => rfl⟩

/-- C8 witness: the valid reschedule of ids 1, 2, 3 against rows 1 and 2. -/
theorem C8_only_nonempty_fields_applied_witness :
    reqValidDate.isAuthenticated = true ∧ reqValidDate.method = "POST" ∧
    ((∀ p ∈ (AdminBulkEditForm.full_clean reqValidDate.formData).cleanedData.filter
        (fun q => q.2.pyTruthy), p.2.pyTruthy = true) ∧
     List.Forall₂ (fun s s2 =>
        (reqValidDate.bulkEditIds.contains s.id = false → s2 = s) ∧
        s2.id = s.id ∧ s2.isSent = s.isSent ∧
        s2.cancelledAtSendTime = s.cancelledAtSendTime ∧
        s2.messageId = s.messageId ∧ s2.templateId = s.templateId ∧
        s2.transportId = s.transportId ∧
        ((∀ p ∈ (AdminBulkEditForm.full_clean reqValidDate.formData).cleanedData.filter
            (fun q => q.2.pyTruthy), p.1 ≠ "scheduled_send_time") →
          s2.scheduledSendTime = s.scheduledSendTime) ∧
        (∀ k, (∀ p ∈ (AdminBulkEditForm.full_clean reqValidDate.formData).cleanedData.filter
            (fun q => q.2.pyTruthy), p.1 ≠ k) →
          lookupStr s2.extra k = lookupStr s.extra k))
      [mkSendable 1, mkSendable 2]
      (FreezableTemplateAdminMixin.perform_bulk_edits 3 reqValidDate
        [mkSendable 1, mkSendable 2]).db) :=
  ⟨rfl, rfl, C8_only_nonempty_fields_applied 3 reqValidDate
    [mkSendable 1, mkSendable 2] rfl rfl⟩
